import Mathlib

/-!
# SatelliteEntity (src/modules/SatelliteEntity.js)

A shallow embedding of the `SatelliteEntity` class: the ground-track loop of
`createGroundTrack`, the overlay map with `show` / `hide` / `showComponent` /
`hideComponent` / `components`, the camera tracking operations `track` /
`isTracked`, and the four per-frame callbacks registered by `createEntities`.

JavaScript values are modelled as follows.

* A number is an element of an arbitrary carrier `ν` with a zero: the code only
  copies numbers and writes the literal `0`, it never computes with them.
* An array is a `List (JSValue ν)`; reading past the end gives `undefined`,
  assigning at index `length` appends, assigning further out pads with
  `undefined`.
* `this.entities` is a plain object: an association list of own properties in
  insertion order, whose prototype is `Object.prototype`.
* Host objects created with `new Cesium.Entity` are identified by the number
  the allocator handed out; `===` on them is equality of these numbers.
* A `throw` is recorded next to the state reached when it happened.
* The host raises `trackedEntityChanged` when `viewer.trackedEntity` changes.
  The listeners this class adds (lines 85-91 and 105-109) move the camera and
  add or take away listeners; they write none of the fields kept here, so
  running them is not a step of the model.
-/

namespace Satvis

/-! ## JavaScript arrays of numbers -/

/-- A JavaScript value as it occurs in a flat position array: a number or
`undefined`. -/
inductive JSValue (ν : Type) where
  | undefined
  | number (x : ν)
  deriving DecidableEq, Repr

/-- Array read `a[i]`: the element, or `undefined` past the end. -/
def arrayGet {ν : Type} (a : List (JSValue ν)) (i : Nat) : JSValue ν :=
  a.getD i JSValue.undefined

/-- Array assignment `a[i] = v`: overwrite inside the array, otherwise grow the
array to length `i + 1`, the slots in between reading as `undefined`. -/
def arraySet {ν : Type} (a : List (JSValue ν)) (i : Nat) (v : JSValue ν) :
    List (JSValue ν) :=
  if i < a.length then a.set i v
  else a ++ List.replicate (i - a.length) JSValue.undefined ++ [v]

/-- The body of the loop of `createGroundTrack` (lines 167-171) at index `i`:
the value stored into `groundTrackPositions[i]`. -/
def groundTrackElement {ν : Type} [Zero ν] (orbitTrackPositions : List (JSValue ν))
    (i : Nat) : JSValue ν :=
  if (i + 1) % 3 = 0 then JSValue.number 0 else arrayGet orbitTrackPositions i

/-- The `for (let i = 0; i < orbitTrackPositions.length; i++)` loop of
`createGroundTrack` (lines 166-172), started at index `i` with the output array
`groundTrackPositions`. The first argument bounds the number of iterations
still to run; the loop guard is checked on every iteration as in the source. -/
def groundTrackLoop {ν : Type} [Zero ν] (orbitTrackPositions : List (JSValue ν)) :
    Nat → Nat → List (JSValue ν) → List (JSValue ν)
  | 0, _, groundTrackPositions => groundTrackPositions
  | fuel + 1, i, groundTrackPositions =>
    if i < orbitTrackPositions.length then
      groundTrackLoop orbitTrackPositions fuel (i + 1)
        (arraySet groundTrackPositions i (groundTrackElement orbitTrackPositions i))
    else groundTrackPositions

/-- Lines 165-172 of `createGroundTrack`: `groundTrackPositions` starts as `[]`
and the loop runs from index `0`; the array is not changed while the loop runs,
so `orbitTrackPositions.length` iterations exhaust the guard. -/
def groundTrackPositions {ν : Type} [Zero ν] (orbitTrackPositions : List (JSValue ν)) :
    List (JSValue ν) :=
  groundTrackLoop orbitTrackPositions orbitTrackPositions.length 0 []

/-! ## The host: viewer, entity collection, clock, camera flights -/

/-- An exception thrown by the host library. -/
inductive HostError where
  | developerError
  | runtimeError
  | typeError
  deriving DecidableEq, Repr

/-- What `this.entities[name]` can evaluate to: an overlay created with
`new Cesium.Entity` (known by its identity), a member inherited from
`Object.prototype` (the object literal `{}` has that prototype), or
`undefined`. -/
inductive Value where
  | undefined
  | entity (id : Nat)
  | inherited (key : String)
  deriving DecidableEq, Repr

/-- The offset `new Cesium.HeadingPitchRange(heading, pitch, range)`; the pitch
is kept as a multiple of `Cesium.Math.PI_OVER_FOUR`. -/
structure HeadingPitchRange where
  heading : Int
  pitchOverPiOverFour : Int
  range : Nat
  deriving DecidableEq, Repr

/-- One call `viewer.flyTo(target, { offset })` together with the variable
`clockRunning` that the function passed to `.then` closes over, and the tracked
target and clock flag the viewer had when the call was made. -/
structure FlyToCall where
  target : Nat
  offset : HeadingPitchRange
  clockRunning : Bool
  trackedEntityAtCall : Option Nat
  shouldAnimateAtCall : Bool
  deriving DecidableEq, Repr

/-- The host as reached through `this.viewer`.

* `entities`: identities of the entities in `viewer.entities`, in insertion
  order; the collection is keyed by entity id, so an identity occurs once.
* `trackedEntity`: `viewer.trackedEntity`, `none` for `undefined`.
* `shouldAnimate`: `viewer.clock.shouldAnimate`.
* `flyToCalls`: the calls of `viewer.flyTo` made so far.
* `trackedEntityChangedListeners`: number of listeners that `createEntities`
  (line 105) has added to `viewer.trackedEntityChanged`. The listeners that
  `artificiallyTrack` adds and takes away again when the host raises its
  events move the camera only and are not counted.
* `nextId`: the identity the next `new Cesium.Entity` receives.
* `debugChecks`: whether the host library runs its argument checks (its
  unminified build does, its release build has them stripped). -/
structure Viewer where
  entities : List Nat
  trackedEntity : Option Nat
  shouldAnimate : Bool
  flyToCalls : List FlyToCall
  trackedEntityChangedListeners : Nat
  nextId : Nat
  debugChecks : Bool
  deriving DecidableEq, Repr

/-- The call `viewer.entities.contains(value)`: whether the collection holds
this very entity. A value without an id is looked up under the key `undefined`,
which the argument check of the host rejects and the release build does not
find; `undefined` itself has no `id` to read. -/
def Viewer.entitiesContains (v : Viewer) : Value → Except HostError Bool
  | Value.entity id => Except.ok (decide (id ∈ v.entities))
  | Value.inherited _ =>
    if v.debugChecks then Except.error HostError.developerError else Except.ok false
  | Value.undefined =>
    Except.error (if v.debugChecks then HostError.developerError else HostError.typeError)

/-- The call `viewer.entities.add(value)`: an entity is inserted under its id
(an id already present is an error); any other value is taken as the options of
a new entity, which is created with a fresh id and inserted. -/
def Viewer.entitiesAdd (v : Viewer) : Value → Except HostError Viewer
  | Value.entity id =>
    if id ∈ v.entities then Except.error HostError.runtimeError
    else Except.ok { v with entities := v.entities ++ [id] }
  | Value.inherited _ =>
    Except.ok { v with entities := v.entities ++ [v.nextId], nextId := v.nextId + 1 }
  | Value.undefined =>
    if v.debugChecks then Except.error HostError.developerError
    else Except.ok { v with entities := v.entities ++ [v.nextId], nextId := v.nextId + 1 }

/-- The call `viewer.entities.remove(value)`: the entry stored under the id of
the entity is deleted; a value without an id removes nothing. The viewer
follows the changes of its collection: when the entity taken out is the tracked
one, the viewer sets `viewer.trackedEntity` to `undefined`. The call does not
throw. -/
def Viewer.entitiesRemove (v : Viewer) : Value → Viewer
  | Value.entity id =>
    { v with entities := v.entities.filter (fun x => x ≠ id),
             trackedEntity :=
               if id ∈ v.entities ∧ v.trackedEntity = some id then none
               else v.trackedEntity }
  | Value.inherited _ => v
  | Value.undefined => v

/-- The call `viewer.flyTo(target, { offset })`: the host notes the request
(and later settles the returned promise with a boolean). -/
def Viewer.flyTo (v : Viewer) (target : Nat) (offset : HeadingPitchRange)
    (clockRunning : Bool) : Viewer :=
  { v with flyToCalls := v.flyToCalls ++
      [{ target := target, offset := offset, clockRunning := clockRunning,
         trackedEntityAtCall := v.trackedEntity, shouldAnimateAtCall := v.shouldAnimate }] }

/-! ## The plain object `this.entities` -/

/-- Names of the properties every plain object inherits from
`Object.prototype`. -/
def objectPrototypeKeys : List String :=
  ["constructor", "__defineGetter__", "__defineSetter__", "hasOwnProperty",
   "__lookupGetter__", "__lookupSetter__", "isPrototypeOf", "propertyIsEnumerable",
   "toString", "valueOf", "__proto__", "toLocaleString"]

/-- Own properties of `this.entities` in insertion order: overlay name and the
identity of the `Cesium.Entity` stored under it. -/
abbrev PlainObject := List (String × Nat)

/-- Own-property lookup. -/
def PlainObject.own : PlainObject → String → Option Nat
  | [], _ => none
  | (k, id) :: rest, key => if k = key then some id else PlainObject.own rest key

/-- The expression `key in obj`: true for an own property and for a property
found on the prototype chain. -/
def PlainObject.hasProperty (obj : PlainObject) (key : String) : Bool :=
  (PlainObject.own obj key).isSome || decide (key ∈ objectPrototypeKeys)

/-- The expression `obj[key]`: the own property if there is one, else the
inherited member, else `undefined`. -/
def PlainObject.getProperty (obj : PlainObject) (key : String) : Value :=
  match PlainObject.own obj key with
  | some id => Value.entity id
  | none => if key ∈ objectPrototypeKeys then Value.inherited key else Value.undefined

/-- The assignment `obj[key] = entity`: an existing own property keeps its
place, a new one goes last. -/
def PlainObject.setProperty : PlainObject → String → Nat → PlainObject
  | [], key, id => [(key, id)]
  | (k, old) :: rest, key, id =>
    if k = key then (k, id) :: rest else (k, old) :: PlainObject.setProperty rest key id

/-- The result of `Object.keys(obj)`, which is also the order in which
`for (var k in obj)` visits a plain object: own enumerable names in insertion
order (for names that are not array indices; `Object.prototype` has no
enumerable property). -/
def PlainObject.keys (obj : PlainObject) : List String :=
  obj.map Prod.fst

/-! ## The class -/

/-- The fields of a `SatelliteEntity` instance that the modelled methods read
or write. `this.orbit` is assigned once by the constructor and only read by the
per-frame callbacks, which take it as an argument below. -/
structure SatelliteEntity where
  viewer : Viewer
  name : String
  size : Nat
  entities : PlainObject
  defaultEntity : Option Nat
  deriving DecidableEq, Repr

/-- How a method call ends: the instance (with the viewer it points to) as the
call left it, and the exception it threw, if any. -/
structure Outcome where
  self : SatelliteEntity
  thrown : Option HostError
  deriving DecidableEq, Repr

/-- The getter `components` (lines 28-30). -/
def SatelliteEntity.components (self : SatelliteEntity) : List String :=
  PlainObject.keys self.entities

/-- The method `showComponent(name)` (lines 32-39); `name = none` stands for
`undefined`. The right operand of `&&` is evaluated only when the left one is
true. -/
def SatelliteEntity.showComponent (self : SatelliteEntity) : Option String → Outcome
  | none => { self := self, thrown := none }
  | some name =>
    if PlainObject.hasProperty self.entities name then
      match self.viewer.entitiesContains (PlainObject.getProperty self.entities name) with
      | Except.error e => { self := self, thrown := some e }
      | Except.ok true => { self := self, thrown := none }
      | Except.ok false =>
        match self.viewer.entitiesAdd (PlainObject.getProperty self.entities name) with
        | Except.error e => { self := self, thrown := some e }
        | Except.ok v => { self := { self with viewer := v }, thrown := none }
    else { self := self, thrown := none }

/-- The method `hideComponent(name)` (lines 47-54). -/
def SatelliteEntity.hideComponent (self : SatelliteEntity) : Option String → Outcome
  | none => { self := self, thrown := none }
  | some name =>
    if PlainObject.hasProperty self.entities name then
      match self.viewer.entitiesContains (PlainObject.getProperty self.entities name) with
      | Except.error e => { self := self, thrown := some e }
      | Except.ok false => { self := self, thrown := none }
      | Except.ok true =>
        { self := { self with viewer :=
            self.viewer.entitiesRemove (PlainObject.getProperty self.entities name) },
          thrown := none }
    else { self := self, thrown := none }

/-- The loop of `show()` over the remaining names; a throw ends the loop. -/
def SatelliteEntity.showLoop (self : SatelliteEntity) : List String → Outcome
  | [] => { self := self, thrown := none }
  | entity :: rest =>
    match self.showComponent (some entity) with
    | { self := next, thrown := none } => SatelliteEntity.showLoop next rest
    | { self := next, thrown := some e } => { self := next, thrown := some e }

/-- The method `show()` (lines 22-26). -/
def SatelliteEntity.show (self : SatelliteEntity) : Outcome :=
  self.showLoop (PlainObject.keys self.entities)

/-- The loop of `hide()` over the remaining names; a throw ends the loop. -/
def SatelliteEntity.hideLoop (self : SatelliteEntity) : List String → Outcome
  | [] => { self := self, thrown := none }
  | entity :: rest =>
    match self.hideComponent (some entity) with
    | { self := next, thrown := none } => SatelliteEntity.hideLoop next rest
    | { self := next, thrown := some e } => { self := next, thrown := some e }

/-- The method `hide()` (lines 41-45). -/
def SatelliteEntity.hide (self : SatelliteEntity) : Outcome :=
  self.hideLoop (PlainObject.keys self.entities)

/-- The method `track(animate)` (lines 56-76) up to its return; the parameter
defaults to `false`. With `animate` the call ends with a `viewer.flyTo` whose
promise is still pending. -/
def SatelliteEntity.track (self : SatelliteEntity) (animate : Bool) : SatelliteEntity :=
  match self.defaultEntity with
  | none => self
  | some defaultEntity =>
    if !animate then
      { self with viewer := { self.viewer with trackedEntity := some defaultEntity } }
    else
      let cleared : Viewer := { self.viewer with trackedEntity := none }
      let clockRunning := cleared.shouldAnimate
      let paused : Viewer := { cleared with shouldAnimate := false }
      let offset : HeadingPitchRange :=
        { heading := 0, pitchOverPiOverFour := -1, range := 1580000 }
      { self with viewer := paused.flyTo defaultEntity offset clockRunning }

/-- The function passed to `.then` in `track` (lines 70-75), run by the host
when the promise of the fly-to is settled with `result`; `clockRunning` is the
variable it closes over and `self` the instance at that moment. -/
def SatelliteEntity.flyToThen (self : SatelliteEntity) (clockRunning : Bool)
    (result : Bool) : SatelliteEntity :=
  if result then
    { self with viewer :=
        { self.viewer with trackedEntity := self.defaultEntity, shouldAnimate := clockRunning } }
  else self

/-- The getter `isTracked` (lines 78-80): `===` of the tracked target and the
default overlay, two `undefined` being equal. -/
def SatelliteEntity.isTracked (self : SatelliteEntity) : Bool :=
  decide (self.viewer.trackedEntity = self.defaultEntity)

/-- The call `new Cesium.Entity(...)`: hands out the next identity. -/
def Viewer.newEntity (v : Viewer) : Nat × Viewer :=
  (v.nextId, { v with nextId := v.nextId + 1 })

/-- The method `createSatellite()` (lines 112-141). -/
def SatelliteEntity.createSatellite (self : SatelliteEntity) : SatelliteEntity :=
  let (id, v) := self.viewer.newEntity
  { self with viewer := v,
              entities := PlainObject.setProperty self.entities "Satellite" id,
              defaultEntity := PlainObject.own
                (PlainObject.setProperty self.entities "Satellite" id) "Satellite" }

/-- The method `createOrbitTrack()` (lines 143-156). -/
def SatelliteEntity.createOrbitTrack (self : SatelliteEntity) : SatelliteEntity :=
  let (id, v) := self.viewer.newEntity
  { self with viewer := v, entities := PlainObject.setProperty self.entities "OrbitTrack" id }

/-- The method `createGroundTrack()` (lines 158-181). -/
def SatelliteEntity.createGroundTrack (self : SatelliteEntity) : SatelliteEntity :=
  let (id, v) := self.viewer.newEntity
  { self with viewer := v, entities := PlainObject.setProperty self.entities "GroundTrack" id }

/-- The method `createCone()` (lines 183-204). -/
def SatelliteEntity.createCone (self : SatelliteEntity) : SatelliteEntity :=
  let (id, v) := self.viewer.newEntity
  { self with viewer := v, entities := PlainObject.setProperty self.entities "Cone" id }

/-- The method `createEntities()` (lines 94-110): the overlay map is reset, the
four overlays are created in this order, and one listener is added to
`viewer.trackedEntityChanged`. -/
def SatelliteEntity.createEntities (self : SatelliteEntity) : SatelliteEntity :=
  let s := ({ self with entities := [] } : SatelliteEntity)
  let s := s.createSatellite.createOrbitTrack.createGroundTrack.createCone
  { s with viewer := { s.viewer with
      trackedEntityChangedListeners := s.viewer.trackedEntityChangedListeners + 1 } }

/-- The expression `tle.split("\n")[0]`: the characters before the first line
feed. -/
def firstLine (tle : String) : String :=
  String.mk (tle.toList.takeWhile (fun c => c ≠ Char.ofNat 10))

/-- The constructor (lines 9-20), for a record whose `SatelliteOrbit` could be
built. -/
def SatelliteEntity.new (viewer : Viewer) (tle : String) : SatelliteEntity :=
  let name := firstLine tle
  let name := if "0 ".toList.isPrefixOf tle.toList then String.mk (name.toList.drop 2) else name
  SatelliteEntity.createEntities
    { viewer := viewer, name := name, size := 1000, entities := [], defaultEntity := none }

/-- A call of one of the four show/hide methods. -/
inductive Call where
  | show
  | hide
  | showComponent (name : Option String)
  | hideComponent (name : Option String)
  deriving DecidableEq, Repr

/-- Run one call. -/
def SatelliteEntity.call (self : SatelliteEntity) : Call → Outcome
  | Call.show => self.show
  | Call.hide => self.hide
  | Call.showComponent name => self.showComponent name
  | Call.hideComponent name => self.hideComponent name

/-- Run a sequence of calls; the caller goes on with the next call whether or
not the previous one threw. -/
def SatelliteEntity.calls (self : SatelliteEntity) : List Call → SatelliteEntity
  | [] => self
  | c :: rest => SatelliteEntity.calls (self.call c).self rest

/-! ## The per-frame callbacks -/

/-- The object `this.orbit`: `computeOrbitTrack(date, samples)` returns a flat
array of numbers or throws; `samples = none` is a call without the second
argument. -/
structure SatelliteOrbit (δ ν ε : Type) where
  computeOrbitTrack : δ → Option Nat → Except ε (List (JSValue ν))

/-- The rotation `new Cesium.HeadingPitchRoll(heading, pitch, roll)`, the
angles in degrees. -/
structure HeadingPitchRoll where
  headingDegrees : Int
  pitchDegrees : Int
  rollDegrees : Int
  deriving DecidableEq, Repr

/-- The functions of the host library the callbacks call; each either returns
or throws. -/
structure CesiumFunctions (τ δ ν κ θ ε : Type) where
  toDate : τ → δ
  fromRadians : JSValue ν → JSValue ν → JSValue ν → Except ε κ
  fromRadiansArrayHeights : List (JSValue ν) → Except ε (List κ)
  headingPitchRollQuaternion : κ → HeadingPitchRoll → Except ε θ

/-- The callback of `this.positionProperty` (lines 96-99). -/
def positionCallback {τ δ ν κ θ ε : Type} (orbit : SatelliteOrbit δ ν ε)
    (cesium : CesiumFunctions τ δ ν κ θ ε) (time : τ) : Except ε κ := do
  let position ← orbit.computeOrbitTrack (cesium.toDate time) (some 1)
  cesium.fromRadians (arrayGet position 0) (arrayGet position 1) (arrayGet position 2)

/-- The `positions` callback of the orbit polyline (lines 146-149). -/
def orbitTrackCallback {τ δ ν κ θ ε : Type} (orbit : SatelliteOrbit δ ν ε)
    (cesium : CesiumFunctions τ δ ν κ θ ε) (time : τ) : Except ε (List κ) := do
  let positions ← orbit.computeOrbitTrack (cesium.toDate time) none
  cesium.fromRadiansArrayHeights positions

/-- The `positions` callback of the ground polyline (lines 163-174). -/
def groundTrackCallback {τ δ ν κ θ ε : Type} [Zero ν] (orbit : SatelliteOrbit δ ν ε)
    (cesium : CesiumFunctions τ δ ν κ θ ε) (time : τ) : Except ε (List κ) := do
  let orbitTrackPositions ← orbit.computeOrbitTrack (cesium.toDate time) none
  cesium.fromRadiansArrayHeights (groundTrackPositions orbitTrackPositions)

/-- The `orientation` callback of the cone (lines 186-191). -/
def coneOrientationCallback {τ δ ν κ θ ε : Type} (orbit : SatelliteOrbit δ ν ε)
    (cesium : CesiumFunctions τ δ ν κ θ ε) (time : τ) : Except ε θ := do
  let position ← orbit.computeOrbitTrack (cesium.toDate time) (some 1)
  let positionCartesian ←
    cesium.fromRadians (arrayGet position 0) (arrayGet position 1) (arrayGet position 2)
  cesium.headingPitchRollQuaternion positionCartesian
    { headingDegrees := 0, pitchDegrees := 180, rollDegrees := 0 }

/-! ## Concrete inputs -/

/-- A viewer with nothing attached, nothing tracked and a running clock, for
either build of the host library. -/
def emptyViewer (debugChecks : Bool) : Viewer :=
  { entities := [], trackedEntity := none, shouldAnimate := true, flyToCalls := [],
    trackedEntityChangedListeners := 0, nextId := 0, debugChecks := debugChecks }

/-- A viewer that already shows and tracks an older entity. -/
def busyViewer : Viewer :=
  { entities := [0, 1], trackedEntity := some 1, shouldAnimate := true, flyToCalls := [],
    trackedEntityChangedListeners := 2, nextId := 2, debugChecks := false }

/-- A three-line record with a name line. -/
def sampleTle : String :=
  "0 ISS (ZARYA)\n1 25544U 98067A\n2 25544  51.6400"

/-- An instance without a default overlay. -/
def markerless : SatelliteEntity :=
  { viewer := busyViewer, name := "none", size := 1000, entities := [], defaultEntity := none }

/-- The instance built from `sampleTle` on an empty viewer, for either build of
the host library. -/
def sampleEntity (debugChecks : Bool) : SatelliteEntity :=
  SatelliteEntity.new (emptyViewer debugChecks) sampleTle

/-- The error of the orbit sampler. -/
inductive OrbitError where
  | propagationError
  deriving DecidableEq, Repr

/-- An orbit whose sampler fails at every time. -/
def failingOrbit : SatelliteOrbit Int Int OrbitError :=
  { computeOrbitTrack := fun _ _ => Except.error OrbitError.propagationError }

/-- Host functions that never throw, on integer times and coordinates. -/
def plainCesium : CesiumFunctions Int Int Int (List (JSValue Int)) Unit OrbitError :=
  { toDate := fun t => t,
    fromRadians := fun a b c => Except.ok [a, b, c],
    fromRadiansArrayHeights := fun xs => Except.ok [xs],
    headingPitchRollQuaternion := fun _ _ => Except.ok () }

/-- The sample instance after `show()` and `track(false)`: all four overlays
attached and the marker tracked. -/
def trackedSample : SatelliteEntity :=
  (sampleEntity false).show.self.track false

/-- The frame of the show/hide methods between the instance `a` before and `b`
after: the fields of the instance, the clock flag, the fly-to calls and the
build of the host are the same, and the tracked target is the same or was an
overlay of the instance and is now unset. The attached entities are left
open. -/
def ShowHideFrame (a b : SatelliteEntity) : Prop :=
  a.name = b.name ∧ a.size = b.size ∧ a.entities = b.entities ∧
  a.defaultEntity = b.defaultEntity ∧
  a.viewer.shouldAnimate = b.viewer.shouldAnimate ∧
  a.viewer.flyToCalls = b.viewer.flyToCalls ∧
  a.viewer.debugChecks = b.viewer.debugChecks ∧
  (b.viewer.trackedEntity = a.viewer.trackedEntity ∨
    (b.viewer.trackedEntity = none ∧
      ∃ (name : String) (id : Nat),
        PlainObject.own a.entities name = some id ∧ a.viewer.trackedEntity = some id))

/-! ### Lemmas for the ground-track loop -/

theorem arraySet_length_self {ν : Type} (a : List (JSValue ν)) (v : JSValue ν) :
    arraySet a a.length v = a ++ [v] := by
  simp [arraySet]

/-- Loop invariant: entering iteration `i` with the first `i` output elements
written, the loop leaves them in place and appends the remaining ones. -/
theorem groundTrackLoop_spec {ν : Type} [Zero ν] (xs : List (JSValue ν)) :
    ∀ (fuel i : Nat) (out : List (JSValue ν)), out.length = i → i + fuel = xs.length →
      groundTrackLoop xs fuel i out
        = out ++ (List.range' i fuel).map (groundTrackElement xs) := by
  intro fuel
  induction fuel with
  | zero => intro i out _ _; simp [groundTrackLoop]
  | succ n ih =>
    intro i out hlen hsum
    have hi : i < xs.length := by omega
    have hset : arraySet out i (groundTrackElement xs i) = out ++ [groundTrackElement xs i] := by
      subst hlen; exact arraySet_length_self _ _
    rw [groundTrackLoop, if_pos hi, hset,
      ih (i + 1) _ (by simp [hlen]) (by omega)]
    simp [List.range'_succ]

theorem groundTrackPositions_eq_map {ν : Type} [Zero ν] (xs : List (JSValue ν)) :
    groundTrackPositions xs = (List.range xs.length).map (groundTrackElement xs) := by
  unfold groundTrackPositions
  rw [groundTrackLoop_spec xs xs.length 0 [] rfl (by simp)]
  simp [List.range_eq_range']

theorem groundTrackPositions_length {ν : Type} [Zero ν] (xs : List (JSValue ν)) :
    (groundTrackPositions xs).length = xs.length := by
  simp [groundTrackPositions_eq_map]

theorem arrayGet_groundTrackPositions {ν : Type} [Zero ν] (xs : List (JSValue ν)) (i : Nat)
    (hi : i < xs.length) :
    arrayGet (groundTrackPositions xs) i = groundTrackElement xs i := by
  simp [arrayGet, groundTrackPositions_eq_map, List.getD_eq_getElem?_getD, hi]


/-! ### Ground projection -/

theorem groundTrackElement_groundTrackPositions {ν : Type} [Zero ν] (xs : List (JSValue ν))
    (i : Nat) (hi : i < xs.length) :
    groundTrackElement (groundTrackPositions xs) i = groundTrackElement xs i := by
  unfold groundTrackElement
  by_cases h : (i + 1) % 3 = 0
  · simp [h]
  · rw [if_neg h, if_neg h, arrayGet_groundTrackPositions xs i hi]
    simp [groundTrackElement, h]

/-- C1: the ground-track loop returns an array of the length of its input in
which the element at every index `i` is `0` when `(i + 1) mod 3 = 0` and the
input element at `i` otherwise; on `[1,2,100, 3,4,200, 5,6,300]` it gives
`[1,2,0, 3,4,0, 5,6,0]`. -/
theorem groundTrackPositions_spec :
    (∀ (ν : Type) [Zero ν] (xs : List (JSValue ν)),
      (groundTrackPositions xs).length = xs.length ∧
      ∀ i : Fin xs.length,
        arrayGet (groundTrackPositions xs) i.val
          = if (i.val + 1) % 3 = 0 then JSValue.number 0 else arrayGet xs i.val) ∧
    groundTrackPositions
        ([1, 2, 100, 3, 4, 200, 5, 6, 300].map (fun n : Int => JSValue.number n))
      = [1, 2, 0, 3, 4, 0, 5, 6, 0].map (fun n : Int => JSValue.number n) := by
  refine ⟨?_, by decide⟩
  intro ν _ xs
  refine ⟨groundTrackPositions_length xs, ?_⟩
  intro i
  rw [arrayGet_groundTrackPositions xs i.val i.isLt]
  rfl

/-- C9: the ground-track loop is idempotent: run on its own output it returns
that output. -/
theorem groundTrackPositions_idempotent {ν : Type} [Zero ν] (xs : List (JSValue ν)) :
    groundTrackPositions (groundTrackPositions xs) = groundTrackPositions xs := by
  rw [groundTrackPositions_eq_map (groundTrackPositions xs), groundTrackPositions_length]
  conv_rhs => rw [groundTrackPositions_eq_map xs]
  apply List.map_congr_left
  intro i hi
  exact groundTrackElement_groundTrackPositions xs i (List.mem_range.mp hi)

/-! ### Camera tracking -/

/-- With a default overlay, `track(true)` is the straight-line code of lines
65-70. -/
theorem track_true_eq (self : SatelliteEntity) (d : Nat) (h : self.defaultEntity = some d) :
    self.track true =
      { self with viewer :=
        (Viewer.flyTo ({ self.viewer with trackedEntity := none, shouldAnimate := false })
          d ({ heading := 0, pitchOverPiOverFour := -1, range := 1580000 })
          self.viewer.shouldAnimate) } := by
  unfold SatelliteEntity.track
  rw [h]
  rfl

/-- C3: on an instance without a default overlay `track(animate)` returns, for
either value of `animate`, with the instance and its viewer as they were:
tracked target, clock flag and the list of fly-to calls are unchanged. -/
theorem track_without_defaultEntity (self : SatelliteEntity) (animate : Bool)
    (h : self.defaultEntity = none) :
    self.track animate = self ∧
    (self.track animate).viewer.trackedEntity = self.viewer.trackedEntity ∧
    (self.track animate).viewer.shouldAnimate = self.viewer.shouldAnimate ∧
    (self.track animate).viewer.flyToCalls = self.viewer.flyToCalls := by
  have h0 : self.track animate = self := by
    unfold SatelliteEntity.track
    rw [h]
  rw [h0]
  exact ⟨rfl, rfl, rfl, rfl⟩

theorem track_without_defaultEntity_witness :
    markerless.defaultEntity = none ∧ markerless.track true = markerless ∧
    (markerless.track true).viewer.trackedEntity = some 1 ∧
    (markerless.track true).viewer.shouldAnimate = true :=
  ⟨rfl, (track_without_defaultEntity markerless true rfl).1,
   (track_without_defaultEntity markerless true rfl).2.1,
   (track_without_defaultEntity markerless true rfl).2.2.1⟩

/-- C10: with a default overlay `track(true)` leaves the tracked target unset
and the clock flag false, and its fly-to call (to the default overlay, heading
0, pitch minus a quarter of pi, range 1580000) saw them so; when the fly-to is
settled with a falsy result the continuation changes nothing, so the target
stays unset and the clock flag stays false. -/
theorem track_animated_failure (self : SatelliteEntity) (d : Nat)
    (h : self.defaultEntity = some d) :
    (self.track true).viewer.trackedEntity = none ∧
    (self.track true).viewer.shouldAnimate = false ∧
    (self.track true).viewer.flyToCalls = self.viewer.flyToCalls ++
      [{ target := d,
         offset := { heading := 0, pitchOverPiOverFour := -1, range := 1580000 },
         clockRunning := self.viewer.shouldAnimate,
         trackedEntityAtCall := none, shouldAnimateAtCall := false }] ∧
    (∀ (later : SatelliteEntity) (clockRunning : Bool),
      later.flyToThen clockRunning false = later) ∧
    ((self.track true).flyToThen self.viewer.shouldAnimate false).viewer.trackedEntity = none ∧
    ((self.track true).flyToThen self.viewer.shouldAnimate false).viewer.shouldAnimate
      = false := by
  have ht := track_true_eq self d h
  rw [ht]
  refine ⟨rfl, rfl, rfl, ?_, rfl, rfl⟩
  intro later clockRunning
  rfl

theorem track_animated_failure_witness :
    ((SatelliteEntity.new busyViewer sampleTle).track true).viewer.trackedEntity = none ∧
    ((SatelliteEntity.new busyViewer sampleTle).track true).viewer.shouldAnimate = false :=
  ⟨(track_animated_failure (SatelliteEntity.new busyViewer sampleTle) 2 (by decide)).1,
   (track_animated_failure (SatelliteEntity.new busyViewer sampleTle) 2 (by decide)).2.1⟩

/-- C2: with a default overlay `track(true)` makes one fly-to call whose
continuation holds the clock flag read before the call; when that fly-to is
settled with a truthy result, whatever the viewer state then is, the clock flag
becomes the value it had right before `track(true)` and the tracked target
becomes the default overlay. -/
theorem track_animated_success (self : SatelliteEntity) (d : Nat)
    (h : self.defaultEntity = some d) :
    ∃ call : FlyToCall,
      (self.track true).viewer.flyToCalls = self.viewer.flyToCalls ++ [call] ∧
      call.target = d ∧
      call.clockRunning = self.viewer.shouldAnimate ∧
      ((self.track true).flyToThen call.clockRunning true).viewer.shouldAnimate
        = self.viewer.shouldAnimate ∧
      ((self.track true).flyToThen call.clockRunning true).viewer.trackedEntity = some d ∧
      ∀ later : SatelliteEntity, later.defaultEntity = some d →
        (later.flyToThen call.clockRunning true).viewer.shouldAnimate
          = self.viewer.shouldAnimate ∧
        (later.flyToThen call.clockRunning true).viewer.trackedEntity = some d := by
  have ht := track_true_eq self d h
  refine ⟨{ target := d,
            offset := { heading := 0, pitchOverPiOverFour := -1, range := 1580000 },
            clockRunning := self.viewer.shouldAnimate,
            trackedEntityAtCall := none, shouldAnimateAtCall := false }, ?_, rfl, rfl, ?_, ?_, ?_⟩
  · rw [ht]; rfl
  · rw [ht]; rfl
  · rw [ht]; simp [SatelliteEntity.flyToThen, h]
  · intro later hl
    simp [SatelliteEntity.flyToThen, hl]

theorem track_animated_success_witness :
    ∃ call : FlyToCall,
      ((SatelliteEntity.new busyViewer sampleTle).track true).viewer.flyToCalls = [call] ∧
      call.target = 2 ∧
      call.clockRunning = true ∧
      (((SatelliteEntity.new busyViewer sampleTle).track true).flyToThen
        call.clockRunning true).viewer.shouldAnimate = true ∧
      (((SatelliteEntity.new busyViewer sampleTle).track true).flyToThen
        call.clockRunning true).viewer.trackedEntity = some 2 :=
  match track_animated_success (SatelliteEntity.new busyViewer sampleTle) 2 (by decide) with
  | ⟨call, h1, h2, h3, h4, h5, _⟩ => ⟨call, h1, h2, h3, h4, h5⟩

/-! ### Construction -/

/-- The constructor run on any viewer: the four overlays get the next four
identities, the marker is the default overlay, the viewer gains one listener
and is otherwise as it was. -/
theorem new_eq (viewer : Viewer) (tle : String) :
    (SatelliteEntity.new viewer tle).entities
      = [("Satellite", viewer.nextId), ("OrbitTrack", viewer.nextId + 1),
         ("GroundTrack", viewer.nextId + 2), ("Cone", viewer.nextId + 3)] ∧
    (SatelliteEntity.new viewer tle).defaultEntity = some viewer.nextId ∧
    (SatelliteEntity.new viewer tle).viewer =
      { viewer with nextId := viewer.nextId + 4,
                    trackedEntityChangedListeners := viewer.trackedEntityChangedListeners + 1 } := by
  simp [SatelliteEntity.new, SatelliteEntity.createEntities, SatelliteEntity.createSatellite,
    SatelliteEntity.createOrbitTrack, SatelliteEntity.createGroundTrack,
    SatelliteEntity.createCone, Viewer.newEntity, PlainObject.setProperty, PlainObject.own]

/-- C4: `isTracked` is true exactly when the tracked target of the viewer is
the default overlay of the instance; right after construction it is false (the
constructor leaves the tracked target alone and the default overlay is a new
entity, while a tracked entity was created earlier); right after `track(false)`
on an instance with a default overlay it is true. -/
theorem isTracked_spec :
    (∀ self : SatelliteEntity,
      self.isTracked = true ↔ self.viewer.trackedEntity = self.defaultEntity) ∧
    (∀ (viewer : Viewer) (tle : String),
      (∀ id, viewer.trackedEntity = some id → id < viewer.nextId) →
      (SatelliteEntity.new viewer tle).viewer.trackedEntity = viewer.trackedEntity ∧
      (SatelliteEntity.new viewer tle).defaultEntity ≠ none ∧
      (SatelliteEntity.new viewer tle).isTracked = false) ∧
    (∀ (self : SatelliteEntity) (d : Nat), self.defaultEntity = some d →
      (self.track false).isTracked = true) := by
  refine ⟨?_, ?_, ?_⟩
  · intro self
    simp [SatelliteEntity.isTracked]
  · intro viewer tle hfresh
    obtain ⟨_, hd, hv⟩ := new_eq viewer tle
    refine ⟨by rw [hv], by rw [hd]; simp, ?_⟩
    simp only [SatelliteEntity.isTracked, hd, hv, decide_eq_false_iff_not]
    intro heq
    have := hfresh viewer.nextId heq
    omega
  · intro self d h
    simp [SatelliteEntity.track, SatelliteEntity.isTracked, h]

theorem isTracked_spec_witness :
    (SatelliteEntity.new busyViewer sampleTle).isTracked = false ∧
    ((SatelliteEntity.new busyViewer sampleTle).track false).isTracked = true :=
  ⟨(isTracked_spec.2.1 busyViewer sampleTle (by decide)).2.2,
   isTracked_spec.2.2 (SatelliteEntity.new busyViewer sampleTle) 2 (by decide)⟩

/-! ### Show and hide: the frame -/

theorem ShowHideFrame.refl (a : SatelliteEntity) : ShowHideFrame a a :=
  ⟨rfl, rfl, rfl, rfl, rfl, rfl, rfl, Or.inl rfl⟩

theorem ShowHideFrame.trans {a b c : SatelliteEntity} (h1 : ShowHideFrame a b)
    (h2 : ShowHideFrame b c) : ShowHideFrame a c := by
  obtain ⟨a1, a2, a3, a4, a5, a6, a7, a8⟩ := h1
  obtain ⟨b1, b2, b3, b4, b5, b6, b7, b8⟩ := h2
  refine ⟨a1.trans b1, a2.trans b2, a3.trans b3, a4.trans b4, a5.trans b5, a6.trans b6,
    a7.trans b7, ?_⟩
  rcases b8 with hb | ⟨hc, name, id, hown, htr⟩
  · rcases a8 with ha | ⟨hn, hex⟩
    · exact Or.inl (hb.trans ha)
    · exact Or.inr ⟨hb.trans hn, hex⟩
  · rcases a8 with ha | ⟨hn, _⟩
    · exact Or.inr ⟨hc, name, id, by rw [a3]; exact hown, by rw [← ha]; exact htr⟩
    · rw [hn] at htr
      cases htr

theorem getProperty_entity (obj : PlainObject) (key : String) (id : Nat)
    (h : PlainObject.getProperty obj key = Value.entity id) :
    PlainObject.own obj key = some id := by
  unfold PlainObject.getProperty at h
  cases hown : PlainObject.own obj key with
  | none =>
    rw [hown] at h
    simp only at h
    split at h <;> cases h
  | some j =>
    rw [hown] at h
    simp only at h
    cases h
    rfl

theorem entitiesAdd_frame (v w : Viewer) (x : Value) (h : v.entitiesAdd x = Except.ok w) :
    v.trackedEntity = w.trackedEntity ∧ v.shouldAnimate = w.shouldAnimate ∧
    v.flyToCalls = w.flyToCalls ∧ v.debugChecks = w.debugChecks := by
  cases x with
  | undefined =>
    simp only [Viewer.entitiesAdd] at h
    split at h
    · cases h
    · cases h; exact ⟨rfl, rfl, rfl, rfl⟩
  | entity id =>
    simp only [Viewer.entitiesAdd] at h
    split at h
    · cases h
    · cases h; exact ⟨rfl, rfl, rfl, rfl⟩
  | inherited key =>
    simp only [Viewer.entitiesAdd] at h
    cases h; exact ⟨rfl, rfl, rfl, rfl⟩

theorem entitiesRemove_frame (v : Viewer) (x : Value) :
    v.shouldAnimate = (v.entitiesRemove x).shouldAnimate ∧
    v.flyToCalls = (v.entitiesRemove x).flyToCalls ∧
    v.debugChecks = (v.entitiesRemove x).debugChecks ∧
    ((v.entitiesRemove x).trackedEntity = v.trackedEntity ∨
      ((v.entitiesRemove x).trackedEntity = none ∧
        ∃ id, x = Value.entity id ∧ v.trackedEntity = some id)) := by
  cases x with
  | undefined => exact ⟨rfl, rfl, rfl, Or.inl rfl⟩
  | inherited key => exact ⟨rfl, rfl, rfl, Or.inl rfl⟩
  | entity id =>
    refine ⟨rfl, rfl, rfl, ?_⟩
    by_cases hc : id ∈ v.entities ∧ v.trackedEntity = some id
    · exact Or.inr ⟨by simp [Viewer.entitiesRemove, hc], id, rfl, hc.2⟩
    · exact Or.inl (by simp only [Viewer.entitiesRemove, if_neg hc])

theorem showComponent_frame (self : SatelliteEntity) (name : Option String) :
    ShowHideFrame self (self.showComponent name).self := by
  cases name with
  | none => exact ShowHideFrame.refl self
  | some n =>
    unfold SatelliteEntity.showComponent
    simp only
    split
    · split
      · exact ShowHideFrame.refl self
      · exact ShowHideFrame.refl self
      · split
        · exact ShowHideFrame.refl self
        · rename_i v hadd
          obtain ⟨h1, h2, h3, h4⟩ := entitiesAdd_frame _ _ _ hadd
          exact ⟨rfl, rfl, rfl, rfl, h2, h3, h4, Or.inl h1.symm⟩
    · exact ShowHideFrame.refl self

theorem hideComponent_frame (self : SatelliteEntity) (name : Option String) :
    ShowHideFrame self (self.hideComponent name).self := by
  cases name with
  | none => exact ShowHideFrame.refl self
  | some n =>
    unfold SatelliteEntity.hideComponent
    simp only
    split
    · split
      · exact ShowHideFrame.refl self
      · exact ShowHideFrame.refl self
      · obtain ⟨h2, h3, h4, h1⟩ :=
          entitiesRemove_frame self.viewer (PlainObject.getProperty self.entities n)
        refine ⟨rfl, rfl, rfl, rfl, h2, h3, h4, ?_⟩
        rcases h1 with h | ⟨hn, id, hx, ht⟩
        · exact Or.inl h
        · exact Or.inr ⟨hn, n, id, getProperty_entity _ _ _ hx, ht⟩
    · exact ShowHideFrame.refl self

theorem showLoop_frame (names : List String) :
    ∀ self : SatelliteEntity, ShowHideFrame self (self.showLoop names).self := by
  induction names with
  | nil => intro self; exact ShowHideFrame.refl self
  | cons n rest ih =>
    intro self
    have h := showComponent_frame self (some n)
    unfold SatelliteEntity.showLoop
    cases hr : self.showComponent (some n) with
    | mk next thrown =>
      rw [hr] at h
      cases thrown with
      | none => exact ShowHideFrame.trans h (ih next)
      | some e => exact h

theorem hideLoop_frame (names : List String) :
    ∀ self : SatelliteEntity, ShowHideFrame self (self.hideLoop names).self := by
  induction names with
  | nil => intro self; exact ShowHideFrame.refl self
  | cons n rest ih =>
    intro self
    have h := hideComponent_frame self (some n)
    unfold SatelliteEntity.hideLoop
    cases hr : self.hideComponent (some n) with
    | mk next thrown =>
      rw [hr] at h
      cases thrown with
      | none => exact ShowHideFrame.trans h (ih next)
      | some e => exact h

theorem call_frame (self : SatelliteEntity) (c : Call) :
    ShowHideFrame self (self.call c).self := by
  rcases c with _ | _ | name | name
  · exact showLoop_frame _ self
  · exact hideLoop_frame _ self
  · exact showComponent_frame self name
  · exact hideComponent_frame self name

theorem calls_frame (cs : List Call) :
    ∀ self : SatelliteEntity, ShowHideFrame self (self.calls cs) := by
  induction cs with
  | nil => intro self; exact ShowHideFrame.refl self
  | cons c rest ih =>
    intro self
    exact ShowHideFrame.trans (call_frame self c) (ih (self.call c).self)

/-- The overlays of a new instance carry identities the viewer had not handed
out before. -/
theorem new_own_fresh (viewer : Viewer) (tle name : String) (id : Nat)
    (h : PlainObject.own (SatelliteEntity.new viewer tle).entities name = some id) :
    viewer.nextId ≤ id := by
  rw [(new_eq viewer tle).1] at h
  simp only [PlainObject.own] at h
  repeat' split at h
  all_goals first
    | (cases h; omega)
    | cases h

/-- C8 (as stated, refuted): on the sample instance with all overlays attached
and the marker tracked, `hide()` does not throw and keeps the four names, but
it changes more than the attached entities: the tracked target of the viewer
goes from the marker to unset. -/
theorem hide_clears_trackedEntity :
    trackedSample.components = ["Satellite", "OrbitTrack", "GroundTrack", "Cone"] ∧
    trackedSample.viewer.entities = [0, 1, 2, 3] ∧
    trackedSample.viewer.trackedEntity = some 0 ∧
    trackedSample.hide.thrown = none ∧
    trackedSample.hide.self.components = ["Satellite", "OrbitTrack", "GroundTrack", "Cone"] ∧
    trackedSample.hide.self.viewer.entities = [] ∧
    trackedSample.hide.self.viewer.trackedEntity = none := by
  decide

/-- C8 (amended): after construction `components` is `Satellite`, `OrbitTrack`,
`GroundTrack`, `Cone` in this order; any sequence of `show()`, `hide()`,
`showComponent(name)` and `hideComponent(name)` calls, from any state, leaves
`components`, the fields of the instance, the clock flag and the fly-to calls
as they were, and leaves the tracked target as it was unless that target is an
overlay of the instance, in which case it may end unset; run right after
construction on a viewer whose tracked entity was created earlier, the calls
leave the tracked target as it was; `hide()` after construction still gives the
four names. -/
theorem components_stable :
    (∀ (viewer : Viewer) (tle : String),
      (SatelliteEntity.new viewer tle).components
        = ["Satellite", "OrbitTrack", "GroundTrack", "Cone"]) ∧
    (∀ (self : SatelliteEntity) (cs : List Call),
      (self.calls cs).components = self.components ∧ ShowHideFrame self (self.calls cs)) ∧
    (∀ (viewer : Viewer) (tle : String) (cs : List Call),
      ((SatelliteEntity.new viewer tle).calls cs).components
        = ["Satellite", "OrbitTrack", "GroundTrack", "Cone"]) ∧
    (∀ (viewer : Viewer) (tle : String) (cs : List Call),
      (∀ id, viewer.trackedEntity = some id → id < viewer.nextId) →
      ((SatelliteEntity.new viewer tle).calls cs).viewer.trackedEntity
        = viewer.trackedEntity) ∧
    (∀ (viewer : Viewer) (tle : String),
      (SatelliteEntity.new viewer tle).hide.self.components
        = ["Satellite", "OrbitTrack", "GroundTrack", "Cone"]) := by
  have hnew : ∀ (viewer : Viewer) (tle : String),
      (SatelliteEntity.new viewer tle).components
        = ["Satellite", "OrbitTrack", "GroundTrack", "Cone"] := by
    intro viewer tle
    simp [SatelliteEntity.components, PlainObject.keys, (new_eq viewer tle).1]
  have hframe : ∀ a b : SatelliteEntity, ShowHideFrame a b →
      b.components = a.components := by
    intro a b h
    simp [SatelliteEntity.components, h.2.2.1]
  refine ⟨hnew, ?_, ?_, ?_, ?_⟩
  · intro self cs
    exact ⟨hframe _ _ (calls_frame cs self), calls_frame cs self⟩
  · intro viewer tle cs
    rw [hframe _ _ (calls_frame cs _), hnew]
  · intro viewer tle cs hfresh
    have htr : (SatelliteEntity.new viewer tle).viewer.trackedEntity = viewer.trackedEntity := by
      rw [(new_eq viewer tle).2.2]
    rcases (calls_frame cs (SatelliteEntity.new viewer tle)).2.2.2.2.2.2.2 with
      h | ⟨_, name, id, hown, ht⟩
    · exact h.trans htr
    · have h1 := new_own_fresh viewer tle name id hown
      have h2 := hfresh id (htr.symm.trans ht)
      omega
  · intro viewer tle
    have h := hframe _ _
      (hideLoop_frame (PlainObject.keys (SatelliteEntity.new viewer tle).entities)
        (SatelliteEntity.new viewer tle))
    exact h.trans (hnew viewer tle)

theorem components_stable_witness :
    ((SatelliteEntity.new busyViewer sampleTle).calls
        [Call.show, Call.hideComponent (some "Satellite"), Call.hide]).viewer.trackedEntity
      = some 1 :=
  components_stable.2.2.2.1 busyViewer sampleTle
    [Call.show, Call.hideComponent (some "Satellite"), Call.hide] (by decide)

/-! ### Show and hide: single overlays -/

theorem own_hasProperty (obj : PlainObject) (key : String) (id : Nat)
    (h : PlainObject.own obj key = some id) :
    PlainObject.hasProperty obj key = true ∧
    PlainObject.getProperty obj key = Value.entity id := by
  simp [PlainObject.hasProperty, PlainObject.getProperty, h]

/-- An undefined name: both methods return at once. -/
theorem showComponent_hideComponent_undefined (self : SatelliteEntity) :
    self.showComponent none = { self := self, thrown := none } ∧
    self.hideComponent none = { self := self, thrown := none } :=
  ⟨rfl, rfl⟩

/-- A name that is neither an own property of the overlay map nor a property
name of `Object.prototype`: both methods leave everything as it was and do not
throw. -/
theorem showComponent_hideComponent_absent (self : SatelliteEntity) (name : String)
    (hown : PlainObject.own self.entities name = none)
    (hproto : name ∉ objectPrototypeKeys) :
    self.showComponent (some name) = { self := self, thrown := none } ∧
    self.hideComponent (some name) = { self := self, thrown := none } := by
  have hp : PlainObject.hasProperty self.entities name = false := by
    simp [PlainObject.hasProperty, hown, hproto]
  simp [SatelliteEntity.showComponent, SatelliteEntity.hideComponent, hp]

/-- A registered overlay name: `showComponent` does not throw, attaches the
overlay, and a second call changes nothing. -/
theorem showComponent_registered (self : SatelliteEntity) (name : String) (id : Nat)
    (h : PlainObject.own self.entities name = some id) :
    (self.showComponent (some name)).thrown = none ∧
    id ∈ (self.showComponent (some name)).self.viewer.entities ∧
    (self.showComponent (some name)).self.showComponent (some name)
      = self.showComponent (some name) := by
  obtain ⟨hp, hg⟩ := own_hasProperty self.entities name id h
  by_cases hm : id ∈ self.viewer.entities
  · have h1 : self.showComponent (some name) = { self := self, thrown := none } := by
      simp [SatelliteEntity.showComponent, hp, hg, Viewer.entitiesContains, hm]
    rw [h1]
    exact ⟨rfl, hm, h1⟩
  · have h1 : self.showComponent (some name) =
        { self := { self with viewer :=
            { self.viewer with entities := self.viewer.entities ++ [id] } },
          thrown := none } := by
      simp [SatelliteEntity.showComponent, hp, hg, Viewer.entitiesContains,
        Viewer.entitiesAdd, hm]
    rw [h1]
    refine ⟨rfl, by simp, ?_⟩
    simp [SatelliteEntity.showComponent, hp, hg, Viewer.entitiesContains]

/-- A registered overlay name: `hideComponent` does not throw, detaches the
overlay, and a second call changes nothing. -/
theorem hideComponent_registered (self : SatelliteEntity) (name : String) (id : Nat)
    (h : PlainObject.own self.entities name = some id) :
    (self.hideComponent (some name)).thrown = none ∧
    id ∉ (self.hideComponent (some name)).self.viewer.entities ∧
    (self.hideComponent (some name)).self.hideComponent (some name)
      = self.hideComponent (some name) := by
  obtain ⟨hp, hg⟩ := own_hasProperty self.entities name id h
  by_cases hm : id ∈ self.viewer.entities
  · have h1 : self.hideComponent (some name) =
        { self := { self with viewer :=
            self.viewer.entitiesRemove (Value.entity id) },
          thrown := none } := by
      simp [SatelliteEntity.hideComponent, hp, hg, Viewer.entitiesContains, hm]
    have hnot : id ∉ (self.viewer.entitiesRemove (Value.entity id)).entities := by
      simp [Viewer.entitiesRemove]
    rw [h1]
    refine ⟨rfl, hnot, ?_⟩
    simp [SatelliteEntity.hideComponent, hp, hg, Viewer.entitiesContains, hnot]
  · have h1 : self.hideComponent (some name) = { self := self, thrown := none } := by
      simp [SatelliteEntity.hideComponent, hp, hg, Viewer.entitiesContains, hm]
    rw [h1]
    exact ⟨rfl, hm, h1⟩

/-- A registered overlay that is attached and tracked: `hideComponent` detaches
it and the viewer ends with no tracked target. -/
theorem hideComponent_tracked (self : SatelliteEntity) (name : String) (id : Nat)
    (h : PlainObject.own self.entities name = some id)
    (hm : id ∈ self.viewer.entities) (ht : self.viewer.trackedEntity = some id) :
    (self.hideComponent (some name)).self.viewer.trackedEntity = none := by
  obtain ⟨hp, hg⟩ := own_hasProperty self.entities name id h
  simp [SatelliteEntity.hideComponent, hp, hg, Viewer.entitiesContains, Viewer.entitiesRemove,
    hm, ht]

/-- C5: at the name `toString`, which is no overlay name but is found by
`name in this.entities`, `showComponent` is not idempotent on the release build
of the host: neither call throws, the first attaches one new entity and the
second attaches another one. -/
theorem showComponent_inherited_twice :
    "toString" ∉ (sampleEntity false).components ∧
    PlainObject.hasProperty (sampleEntity false).entities "toString" = true ∧
    ((sampleEntity false).showComponent (some "toString")).thrown = none ∧
    ((sampleEntity false).showComponent (some "toString")).self.viewer.entities = [4] ∧
    (((sampleEntity false).showComponent (some "toString")).self.showComponent
      (some "toString")).thrown = none ∧
    (((sampleEntity false).showComponent (some "toString")).self.showComponent
      (some "toString")).self.viewer.entities = [4, 5] := by
  decide

/-- C7: at the name `toString`, which is no overlay name but is found by
`name in this.entities`, `showComponent` attaches a new entity to an empty
viewport on the release build of the host, and `showComponent` and
`hideComponent` both throw on the build with argument checks. -/
theorem showComponent_unregistered_name :
    "toString" ∉ (sampleEntity false).components ∧
    "toString" ∉ (sampleEntity true).components ∧
    (sampleEntity false).viewer.entities = [] ∧
    ((sampleEntity false).showComponent (some "toString")).self.viewer.entities = [4] ∧
    ((sampleEntity true).showComponent (some "toString")).thrown
      = some HostError.developerError ∧
    ((sampleEntity true).hideComponent (some "toString")).thrown
      = some HostError.developerError := by
  decide

/-! ### Per-frame callbacks -/

/-- C6 (as stated, refuted): with an orbit whose sampler fails, each of the four
callbacks ends with that error instead of returning. -/
theorem callbacks_raise_at_failingOrbit :
    failingOrbit.computeOrbitTrack (plainCesium.toDate 0) (some 1)
      = Except.error OrbitError.propagationError ∧
    failingOrbit.computeOrbitTrack (plainCesium.toDate 0) none
      = Except.error OrbitError.propagationError ∧
    positionCallback failingOrbit plainCesium 0 = Except.error OrbitError.propagationError ∧
    orbitTrackCallback failingOrbit plainCesium 0 = Except.error OrbitError.propagationError ∧
    groundTrackCallback failingOrbit plainCesium 0 = Except.error OrbitError.propagationError ∧
    coneOrientationCallback failingOrbit plainCesium 0
      = Except.error OrbitError.propagationError :=
  ⟨rfl, rfl, rfl, rfl, rfl, rfl⟩

/-- C6 (amended): when the orbit sampler fails at a time, every callback that
calls it there fails with the same error: the marker position and the cone
orientation for a one-sample call, the orbit track and the ground track for a
call without a sample count. No callback catches the error. -/
theorem callbacks_propagate_error {τ δ ν κ θ ε : Type} [Zero ν]
    (orbit : SatelliteOrbit δ ν ε) (cesium : CesiumFunctions τ δ ν κ θ ε) (time : τ) :
    (∀ e : ε, orbit.computeOrbitTrack (cesium.toDate time) (some 1) = Except.error e →
      positionCallback orbit cesium time = Except.error e ∧
      coneOrientationCallback orbit cesium time = Except.error e) ∧
    (∀ e : ε, orbit.computeOrbitTrack (cesium.toDate time) none = Except.error e →
      orbitTrackCallback orbit cesium time = Except.error e ∧
      groundTrackCallback orbit cesium time = Except.error e) := by
  constructor
  · intro e h
    simp only [positionCallback, coneOrientationCallback, h]
    exact ⟨rfl, rfl⟩
  · intro e h
    simp only [orbitTrackCallback, groundTrackCallback, h]
    exact ⟨rfl, rfl⟩

theorem callbacks_propagate_error_witness :
    (positionCallback failingOrbit plainCesium 7 = Except.error OrbitError.propagationError ∧
      coneOrientationCallback failingOrbit plainCesium 7
        = Except.error OrbitError.propagationError) ∧
    (orbitTrackCallback failingOrbit plainCesium 7 = Except.error OrbitError.propagationError ∧
      groundTrackCallback failingOrbit plainCesium 7
        = Except.error OrbitError.propagationError) :=
  ⟨(callbacks_propagate_error failingOrbit plainCesium 7).1 OrbitError.propagationError rfl,
   (callbacks_propagate_error failingOrbit plainCesium 7).2 OrbitError.propagationError rfl⟩

end Satvis
